import Mathlib

/-!
  # Whatomate message gateway — verification of the account handlers and
  # session-window rules

  Shallow embedding of the WhatsApp Business gateway in this repository:
  the account CRUD handlers of `internal/handlers/accounts.go` (request
  decoding and HTTP transport stripped, the data flow kept), the provider
  credential-validation call sequence, the embedded-signup token-exchange
  tail, and — where the implementing component is not part of the
  published sources — definitions modelled from the specification
  (session-window engine, outbound dispatcher, status reconciler, account
  cache), each marked as such in its doc comment.

  Machine integers in the source are Go `int`/timestamps; they are modelled
  as `Nat`/`Int` since none of the verified paths exercises overflow.
-/

/-- Modelled from the spec: `models.WhatsAppAccount` (package
`internal/models` is not among the published sources). Fields are exactly
those the handlers in `accounts.go` read and write, plus the spec's §3
Account attributes; `createdAt`/`updatedAt` carry the already formatted
timestamp strings used by `accountToResponse`. -/
structure WhatsAppAccount where
  id : Nat
  organizationID : Nat
  name : String
  appID : String
  phoneID : String
  businessID : String
  accessToken : String
  appSecret : String
  webhookVerifyToken : String
  apiVersion : String
  isDefaultIncoming : Bool
  isDefaultOutgoing : Bool
  autoReadReceipt : Bool
  status : String
  pin : String
  createdAt : String
  updatedAt : String
  deriving Repr, DecidableEq

/-- `AccountRequest` from `accounts.go`: the JSON body of a create/update
call. Absent JSON fields decode to `""` or `false`, as in Go. -/
structure AccountRequest where
  name : String
  appID : String
  phoneID : String
  businessID : String
  accessToken : String
  appSecret : String
  webhookVerifyToken : String
  apiVersion : String
  isDefaultIncoming : Bool
  isDefaultOutgoing : Bool
  autoReadReceipt : Bool
  deriving Repr, DecidableEq

/-- `AccountResponse` from `accounts.go`: the client-facing projection of an
account. It has no access-token and no app-secret field, only the
`hasAccessToken`/`hasAppSecret` booleans. -/
structure AccountResponse where
  id : Nat
  name : String
  appID : String
  phoneID : String
  businessID : String
  webhookVerifyToken : String
  apiVersion : String
  isDefaultIncoming : Bool
  isDefaultOutgoing : Bool
  autoReadReceipt : Bool
  status : String
  hasAccessToken : Bool
  hasAppSecret : Bool
  phoneNumber : String
  displayName : String
  createdAt : String
  updatedAt : String
  deriving Repr, DecidableEq

/-- `accountToResponse` from `accounts.go`: copies the non-secret fields and
replaces the two secrets by their non-emptiness booleans. `phoneNumber` and
`displayName` are left at their Go zero value, as the function does. -/
def accountToResponse (acc : WhatsAppAccount) : AccountResponse :=
  { id := acc.id
    name := acc.name
    appID := acc.appID
    phoneID := acc.phoneID
    businessID := acc.businessID
    webhookVerifyToken := acc.webhookVerifyToken
    apiVersion := acc.apiVersion
    isDefaultIncoming := acc.isDefaultIncoming
    isDefaultOutgoing := acc.isDefaultOutgoing
    autoReadReceipt := acc.autoReadReceipt
    status := acc.status
    hasAccessToken := acc.accessToken ≠ ""
    hasAppSecret := acc.appSecret ≠ ""
    phoneNumber := ""
    displayName := ""
    createdAt := acc.createdAt
    updatedAt := acc.updatedAt }

/-- The field-update block of `UpdateAccount` (`accounts.go`): each string
field is overwritten only when the request supplies a non-empty value; the
three booleans are overwritten unconditionally. The Go code performs these
as a sequence of independent single-field assignments, which equals this
simultaneous record update. -/
def updatedAccount (acc : WhatsAppAccount) (req : AccountRequest) : WhatsAppAccount :=
  { acc with
    name := if req.name ≠ "" then req.name else acc.name
    appID := if req.appID ≠ "" then req.appID else acc.appID
    phoneID := if req.phoneID ≠ "" then req.phoneID else acc.phoneID
    businessID := if req.businessID ≠ "" then req.businessID else acc.businessID
    accessToken := if req.accessToken ≠ "" then req.accessToken else acc.accessToken
    appSecret := if req.appSecret ≠ "" then req.appSecret else acc.appSecret
    webhookVerifyToken :=
      if req.webhookVerifyToken ≠ "" then req.webhookVerifyToken else acc.webhookVerifyToken
    apiVersion := if req.apiVersion ≠ "" then req.apiVersion else acc.apiVersion
    autoReadReceipt := req.autoReadReceipt
    isDefaultIncoming := req.isDefaultIncoming
    isDefaultOutgoing := req.isDefaultOutgoing }

/-- C5: the client-facing account projection never contains the stored
access token or app secret: it exposes only the booleans `hasAccessToken`
and `hasAppSecret`, true exactly when the respective stored field is
non-empty, and two accounts that agree on every non-secret field and differ
only in the values of their (non-empty) secrets produce identical
responses. -/
theorem C5_secrets_redacted (a b : WhatsAppAccount)
    (hid : a.id = b.id) (hname : a.name = b.name) (happ : a.appID = b.appID)
    (hph : a.phoneID = b.phoneID) (hbiz : a.businessID = b.businessID)
    (hwv : a.webhookVerifyToken = b.webhookVerifyToken)
    (hav : a.apiVersion = b.apiVersion)
    (hdi : a.isDefaultIncoming = b.isDefaultIncoming)
    (hdo : a.isDefaultOutgoing = b.isDefaultOutgoing)
    (har : a.autoReadReceipt = b.autoReadReceipt) (hst : a.status = b.status)
    (hca : a.createdAt = b.createdAt) (hua : a.updatedAt = b.updatedAt)
    (hta : a.accessToken ≠ "") (htb : b.accessToken ≠ "")
    (hsa : a.appSecret ≠ "") (hsb : b.appSecret ≠ "") :
    accountToResponse a = accountToResponse b ∧
    ((accountToResponse a).hasAccessToken = true ↔ a.accessToken ≠ "") ∧
    ((accountToResponse a).hasAppSecret = true ↔ a.appSecret ≠ "") := by
  refine ⟨?_, ?_, ?_⟩
  · simp only [accountToResponse, hid, hname, happ, hph, hbiz, hwv, hav, hdi, hdo,
      har, hst, hca, hua]
    simp [hta, htb, hsa, hsb]
  · simp [accountToResponse]
  · simp [accountToResponse]

/-- Witness for C5 at concrete accounts differing only in their non-empty
secrets. -/
theorem C5_secrets_redacted_witness :
    accountToResponse
        { id := 1, organizationID := 1, name := "a", appID := "", phoneID := "p",
          businessID := "b", accessToken := "T1", appSecret := "S1",
          webhookVerifyToken := "w", apiVersion := "v21.0",
          isDefaultIncoming := false, isDefaultOutgoing := false,
          autoReadReceipt := false, status := "active", pin := "",
          createdAt := "", updatedAt := "" }
      = accountToResponse
        { id := 1, organizationID := 1, name := "a", appID := "", phoneID := "p",
          businessID := "b", accessToken := "T2", appSecret := "S2",
          webhookVerifyToken := "w", apiVersion := "v21.0",
          isDefaultIncoming := false, isDefaultOutgoing := false,
          autoReadReceipt := false, status := "active", pin := "",
          createdAt := "", updatedAt := "" } :=
  (C5_secrets_redacted _ _ rfl rfl rfl rfl rfl rfl rfl rfl rfl rfl rfl rfl rfl
    (by decide) (by decide) (by decide) (by decide)).1

/-- C10: in the update path, every string field of the account is left
unchanged when the corresponding request field is empty, while the three
boolean fields are always overwritten with the request values, so a request
that omits them (decoding to `false`) resets all three flags to `false`. -/
theorem C10_update_frame (acc : WhatsAppAccount) (req : AccountRequest) :
    (req.name = "" → (updatedAccount acc req).name = acc.name) ∧
    (req.appID = "" → (updatedAccount acc req).appID = acc.appID) ∧
    (req.phoneID = "" → (updatedAccount acc req).phoneID = acc.phoneID) ∧
    (req.businessID = "" → (updatedAccount acc req).businessID = acc.businessID) ∧
    (req.accessToken = "" → (updatedAccount acc req).accessToken = acc.accessToken) ∧
    (req.appSecret = "" → (updatedAccount acc req).appSecret = acc.appSecret) ∧
    (req.webhookVerifyToken = "" →
      (updatedAccount acc req).webhookVerifyToken = acc.webhookVerifyToken) ∧
    (req.apiVersion = "" → (updatedAccount acc req).apiVersion = acc.apiVersion) ∧
    (updatedAccount acc req).autoReadReceipt = req.autoReadReceipt ∧
    (updatedAccount acc req).isDefaultIncoming = req.isDefaultIncoming ∧
    (updatedAccount acc req).isDefaultOutgoing = req.isDefaultOutgoing := by
  refine ⟨?_, ?_, ?_, ?_, ?_, ?_, ?_, ?_, rfl, rfl, rfl⟩ <;>
    intro h <;> simp [updatedAccount, h]

/-- Witness for C10: a request supplying only a new access token leaves the
other string fields alone and resets the booleans. -/
theorem C10_update_frame_witness :
    (updatedAccount
        { id := 1, organizationID := 1, name := "a", appID := "x", phoneID := "p",
          businessID := "b", accessToken := "T1", appSecret := "S1",
          webhookVerifyToken := "w", apiVersion := "v21.0",
          isDefaultIncoming := true, isDefaultOutgoing := true,
          autoReadReceipt := true, status := "active", pin := "",
          createdAt := "", updatedAt := "" }
        { name := "", appID := "", phoneID := "", businessID := "",
          accessToken := "T2", appSecret := "", webhookVerifyToken := "",
          apiVersion := "", isDefaultIncoming := false,
          isDefaultOutgoing := false, autoReadReceipt := false }).name = "a" ∧
    (updatedAccount
        { id := 1, organizationID := 1, name := "a", appID := "x", phoneID := "p",
          businessID := "b", accessToken := "T1", appSecret := "S1",
          webhookVerifyToken := "w", apiVersion := "v21.0",
          isDefaultIncoming := true, isDefaultOutgoing := true,
          autoReadReceipt := true, status := "active", pin := "",
          createdAt := "", updatedAt := "" }
        { name := "", appID := "", phoneID := "", businessID := "",
          accessToken := "T2", appSecret := "", webhookVerifyToken := "",
          apiVersion := "", isDefaultIncoming := false,
          isDefaultOutgoing := false, autoReadReceipt := false }).isDefaultIncoming
      = false := by
  refine ⟨(C10_update_frame _ _).1 rfl, ?_⟩
  have h := (C10_update_frame
    { id := 1, organizationID := 1, name := "a", appID := "x", phoneID := "p",
      businessID := "b", accessToken := "T1", appSecret := "S1",
      webhookVerifyToken := "w", apiVersion := "v21.0",
      isDefaultIncoming := true, isDefaultOutgoing := true,
      autoReadReceipt := true, status := "active", pin := "",
      createdAt := "", updatedAt := "" }
    { name := "", appID := "", phoneID := "", businessID := "",
      accessToken := "T2", appSecret := "", webhookVerifyToken := "",
      apiVersion := "", isDefaultIncoming := false,
      isDefaultOutgoing := false, autoReadReceipt := false })
  exact h.2.2.2.2.2.2.2.2.2.1

/-- The durable store and the account cache, the two stateful collaborators
of the account handlers. `accounts` models the `whatsapp_accounts` table;
`cache` models the in-memory account cache as an association list keyed by
provider phone identifier (§4.1, §3 of the spec; the cache implementation
itself is not among the published sources). -/
structure GatewayState where
  accounts : List WhatsAppAccount
  cache : List (String × WhatsAppAccount)
  deriving Repr, DecidableEq

/-- Lookup of a cache entry by phone identifier (first match). -/
def cacheLookup (c : List (String × WhatsAppAccount)) (phoneID : String) :
    Option WhatsAppAccount :=
  match c with
  | [] => none
  | (k, a) :: rest => if k = phoneID then some a else cacheLookup rest phoneID

/-- Modelled from the spec: `InvalidateWhatsAppAccountCache` (its
implementation is not among the published sources; §4.1 and §3 say a cache
entry is keyed by provider phone identifier and explicitly invalidated).
Invalidation removes every entry under that key. -/
def invalidateWhatsAppAccountCache (phoneID : String)
    (c : List (String × WhatsAppAccount)) : List (String × WhatsAppAccount) :=
  c.filter (fun e => e.1 ≠ phoneID)

/-- Modelled from the spec: `resolve(phoneIdentifier) → Account | NotFound`
(§4.1) — a pull-through cache over the durable store, populated on miss. -/
def resolve (phoneID : String) (st : GatewayState) :
    Option WhatsAppAccount × GatewayState :=
  match cacheLookup st.cache phoneID with
  | some a => (some a, st)
  | none =>
    match st.accounts.find? (fun a => a.phoneID = phoneID) with
    | some a => (some a, { st with cache := (phoneID, a) :: st.cache })
    | none => (none, st)

/-- `findByIDAndOrg` from the handlers: durable-store lookup of an account
by primary key, scoped to the caller's organization. -/
def findByIDAndOrg (accounts : List WhatsAppAccount) (id orgID : Nat) :
    Option WhatsAppAccount :=
  accounts.find? (fun a => a.id = id ∧ a.organizationID = orgID)

/-- The `UPDATE ... SET is_default_incoming = false WHERE organization_id =
? AND is_default_incoming = true` query issued by the create/update
handlers before setting the flag on one account. -/
def clearDefaultIncoming (orgID : Nat) (accounts : List WhatsAppAccount) :
    List WhatsAppAccount :=
  accounts.map (fun a =>
    if a.organizationID = orgID ∧ a.isDefaultIncoming then
      { a with isDefaultIncoming := false }
    else a)

/-- The analogous clearing query for the outgoing-default flag. -/
def clearDefaultOutgoing (orgID : Nat) (accounts : List WhatsAppAccount) :
    List WhatsAppAccount :=
  accounts.map (fun a =>
    if a.organizationID = orgID ∧ a.isDefaultOutgoing then
      { a with isDefaultOutgoing := false }
    else a)

/-- `DB.Save`: write a row back by primary key. -/
def saveAccount (acc : WhatsAppAccount) (accounts : List WhatsAppAccount) :
    List WhatsAppAccount :=
  accounts.map (fun a => if a.id = acc.id then acc else a)

/-- `CreateAccount` from `accounts.go`. `genToken` stands for the random
`generateVerifyToken()` result, `newID` for the primary key the store
assigns. After validating the required fields it fills defaults, clears
other accounts' default flags when the request sets one, and inserts the
row. It performs no cache operation. -/
def CreateAccount (orgID : Nat) (req : AccountRequest) (genToken : String)
    (newID : Nat) (st : GatewayState) :
    Except String (GatewayState × AccountResponse) :=
  if req.name = "" ∨ req.phoneID = "" ∨ req.businessID = "" ∨ req.accessToken = "" then
    .error "Name, phone_id, business_id, and access_token are required"
  else
    let webhookVerifyToken :=
      if req.webhookVerifyToken = "" then genToken else req.webhookVerifyToken
    let apiVersion := if req.apiVersion = "" then "v21.0" else req.apiVersion
    let account : WhatsAppAccount :=
      { id := newID, organizationID := orgID, name := req.name, appID := req.appID,
        phoneID := req.phoneID, businessID := req.businessID,
        accessToken := req.accessToken, appSecret := req.appSecret,
        webhookVerifyToken := webhookVerifyToken, apiVersion := apiVersion,
        isDefaultIncoming := req.isDefaultIncoming,
        isDefaultOutgoing := req.isDefaultOutgoing,
        autoReadReceipt := req.autoReadReceipt, status := "active", pin := "",
        createdAt := "", updatedAt := "" }
    let accounts1 :=
      if req.isDefaultIncoming then clearDefaultIncoming orgID st.accounts
      else st.accounts
    let accounts2 :=
      if req.isDefaultOutgoing then clearDefaultOutgoing orgID accounts1
      else accounts1
    .ok ({ accounts := accounts2 ++ [account], cache := st.cache },
         accountToResponse account)

/-- `UpdateAccount` from `accounts.go`: finds the row, applies the
conditional field updates and unconditional flag assignments
(`updatedAccount`), clears other accounts' default flags when a flag is
newly set, saves, and invalidates the cache entry for the account's
(post-update) phone identifier. -/
def UpdateAccount (orgID id : Nat) (req : AccountRequest) (st : GatewayState) :
    Except String (GatewayState × AccountResponse) :=
  match findByIDAndOrg st.accounts id orgID with
  | none => .error "Account not found"
  | some account0 =>
    let account2 := updatedAccount account0 req
    let accounts1 :=
      if req.isDefaultIncoming ∧ ¬account0.isDefaultIncoming then
        clearDefaultIncoming orgID st.accounts
      else st.accounts
    let accounts2 :=
      if req.isDefaultOutgoing ∧ ¬account0.isDefaultOutgoing then
        clearDefaultOutgoing orgID accounts1
      else accounts1
    let accounts3 := saveAccount account2 accounts2
    .ok ({ accounts := accounts3,
           cache := invalidateWhatsAppAccountCache account2.phoneID st.cache },
         accountToResponse account2)

/-- `DeleteAccount` from `accounts.go`: finds the row, deletes it, and
invalidates the cache entry for its phone identifier. -/
def DeleteAccount (orgID id : Nat) (st : GatewayState) :
    Except String (GatewayState × String) :=
  match findByIDAndOrg st.accounts id orgID with
  | none => .error "Account not found"
  | some account =>
    .ok ({ accounts := st.accounts.filter (fun a => a.id ≠ account.id),
           cache := invalidateWhatsAppAccountCache account.phoneID st.cache },
         "Account deleted successfully")

theorem cacheLookup_invalidate (phoneID : String)
    (c : List (String × WhatsAppAccount)) :
    cacheLookup (invalidateWhatsAppAccountCache phoneID c) phoneID = none := by
  induction c with
  | nil => rfl
  | cons e rest ih =>
    by_cases h : e.1 = phoneID
    · simpa [invalidateWhatsAppAccountCache, h] using ih
    · simpa [invalidateWhatsAppAccountCache, cacheLookup, h] using ih

/-- A stored account with phone identifier `P1` and access token `T1`. -/
def c1Account : WhatsAppAccount :=
  { id := 1, organizationID := 1, name := "Main", appID := "app",
    phoneID := "P1", businessID := "B1", accessToken := "T1", appSecret := "S1",
    webhookVerifyToken := "V1", apiVersion := "v21.0",
    isDefaultIncoming := false, isDefaultOutgoing := false,
    autoReadReceipt := false, status := "active", pin := "",
    createdAt := "", updatedAt := "" }

/-- A state whose cache holds the resolved entry for `P1`. -/
def c1State : GatewayState :=
  { accounts := [c1Account], cache := [("P1", c1Account)] }

/-- An update request that moves the account to phone identifier `P2` and
rotates the access token to `T2`. -/
def c1UpdateReq : AccountRequest :=
  { name := "", appID := "", phoneID := "P2", businessID := "",
    accessToken := "T2", appSecret := "", webhookVerifyToken := "",
    apiVersion := "", isDefaultIncoming := false, isDefaultOutgoing := false,
    autoReadReceipt := false }

/-- A valid creation request for a second account. -/
def c1CreateReq : AccountRequest :=
  { name := "Second", appID := "", phoneID := "P9", businessID := "B9",
    accessToken := "T9", appSecret := "", webhookVerifyToken := "",
    apiVersion := "", isDefaultIncoming := false, isDefaultOutgoing := false,
    autoReadReceipt := false }

/-- The row `CreateAccount` builds from `c1CreateReq` with generated verify
token `g` and primary key `2`. -/
def c1NewAccount : WhatsAppAccount :=
  { id := 2, organizationID := 1, name := "Second", appID := "",
    phoneID := "P9", businessID := "B9", accessToken := "T9", appSecret := "",
    webhookVerifyToken := "g", apiVersion := "v21.0",
    isDefaultIncoming := false, isDefaultOutgoing := false,
    autoReadReceipt := false, status := "active", pin := "",
    createdAt := "", updatedAt := "" }

/-- State after `CreateAccount 1 c1CreateReq "g" 2 c1State`. -/
def c1AfterCreate : GatewayState :=
  { accounts := c1State.accounts ++ [c1NewAccount], cache := c1State.cache }

/-- State after `UpdateAccount 1 1 c1UpdateReq c1State`. -/
def c1AfterUpdate : GatewayState :=
  { accounts := saveAccount (updatedAccount c1Account c1UpdateReq) c1State.accounts,
    cache := invalidateWhatsAppAccountCache
      (updatedAccount c1Account c1UpdateReq).phoneID c1State.cache }

/-- State after `DeleteAccount 1 1 c1State`. -/
def c1AfterDelete : GatewayState :=
  { accounts := c1State.accounts.filter (fun a => a.id ≠ c1Account.id),
    cache := invalidateWhatsAppAccountCache c1Account.phoneID c1State.cache }

/-- C1 counterexample: an update that changes the phone identifier from
`P1` to `P2` (and rotates the token `T1` → `T2`) completes, yet the cache
entry for the old identifier `P1` is not invalidated — it still holds the
pre-update account, and a subsequent `resolve` for `P1` returns the stale
access token `T1`. (`CreateAccount` likewise performs no invalidation at
all.) This refutes the claim that every completed mutation invalidates the
old identifier's entry. -/
theorem C1_stale_cache_counterexample :
    UpdateAccount 1 1 c1UpdateReq c1State
      = .ok (c1AfterUpdate, accountToResponse (updatedAccount c1Account c1UpdateReq)) ∧
    c1Account.phoneID = "P1" ∧
    (updatedAccount c1Account c1UpdateReq).phoneID = "P2" ∧
    c1Account.accessToken = "T1" ∧
    (updatedAccount c1Account c1UpdateReq).accessToken = "T2" ∧
    cacheLookup c1AfterUpdate.cache "P1" = some c1Account ∧
    (resolve "P1" c1AfterUpdate).1 = some c1Account :=
  ⟨rfl, rfl, rfl, rfl, rfl, rfl, rfl⟩

/-- C1 (amended): `UpdateAccount` and `DeleteAccount` invalidate, before
returning, the cache entry keyed by the account's current — for an update,
post-update — phone identifier, while `CreateAccount` performs no cache
invalidation at all, and an update that changes the phone identifier leaves
the old identifier's entry in place (see the counterexample). -/
theorem C1_cache_invalidation (orgID id newID : Nat) (genTok : String)
    (reqC reqU : AccountRequest) (st st₁ st₂ st₃ : GatewayState)
    (r₁ r₂ : AccountResponse) (m₃ : String) :
    (CreateAccount orgID reqC genTok newID st = .ok (st₁, r₁) →
      st₁.cache = st.cache) ∧
    (UpdateAccount orgID id reqU st = .ok (st₂, r₂) →
      cacheLookup st₂.cache r₂.phoneID = none) ∧
    (DeleteAccount orgID id st = .ok (st₃, m₃) →
      ∃ acc, findByIDAndOrg st.accounts id orgID = some acc ∧
        cacheLookup st₃.cache acc.phoneID = none) := by
  refine ⟨?_, ?_, ?_⟩
  · intro h
    unfold CreateAccount at h
    split at h
    · exact Except.noConfusion h
    · simp only [Except.ok.injEq, Prod.mk.injEq] at h
      rw [← h.1]
  · intro h
    unfold UpdateAccount at h
    cases hf : findByIDAndOrg st.accounts id orgID with
    | none => rw [hf] at h; exact Except.noConfusion h
    | some account0 =>
      rw [hf] at h
      simp only [Except.ok.injEq, Prod.mk.injEq] at h
      rw [← h.1, ← h.2]
      exact cacheLookup_invalidate _ _
  · intro h
    unfold DeleteAccount at h
    cases hf : findByIDAndOrg st.accounts id orgID with
    | none => rw [hf] at h; exact Except.noConfusion h
    | some account =>
      rw [hf] at h
      simp only [Except.ok.injEq, Prod.mk.injEq] at h
      exact ⟨account, rfl, by rw [← h.1]; exact cacheLookup_invalidate _ _⟩

/-- Witness for C1 (amended), instantiated at the concrete state: the
create leaves the cache untouched, and the update and delete leave no entry
under the keys they invalidate. -/
theorem C1_cache_invalidation_witness :
    c1AfterCreate.cache = c1State.cache ∧
    cacheLookup c1AfterUpdate.cache
      (accountToResponse (updatedAccount c1Account c1UpdateReq)).phoneID = none ∧
    (∃ acc, findByIDAndOrg c1State.accounts 1 1 = some acc ∧
      cacheLookup c1AfterDelete.cache acc.phoneID = none) := by
  have h := C1_cache_invalidation 1 1 2 "g" c1CreateReq c1UpdateReq c1State
    c1AfterCreate c1AfterUpdate c1AfterDelete (accountToResponse c1NewAccount)
    (accountToResponse (updatedAccount c1Account c1UpdateReq))
    "Account deleted successfully"
  exact ⟨h.1 rfl, h.2.1 rfl, h.2.2 rfl⟩

/-- Number of accounts of one organization holding the incoming-default
flag. The spec's §3 invariant says this is at most one. -/
def defaultIncomingCount (orgID : Nat) (accounts : List WhatsAppAccount) : Nat :=
  accounts.countP (fun a => decide (a.organizationID = orgID ∧ a.isDefaultIncoming = true))

/-- Number of accounts of one organization holding the outgoing-default
flag. -/
def defaultOutgoingCount (orgID : Nat) (accounts : List WhatsAppAccount) : Nat :=
  accounts.countP (fun a => decide (a.organizationID = orgID ∧ a.isDefaultOutgoing = true))

/-- §3 invariant: at most one account of the organization holds each
default flag. -/
def atMostOneDefaultPerOrg (orgID : Nat) (accounts : List WhatsAppAccount) : Prop :=
  defaultIncomingCount orgID accounts ≤ 1 ∧ defaultOutgoingCount orgID accounts ≤ 1

theorem defaultIncomingCount_clearIncoming (org o : Nat) (l : List WhatsAppAccount) :
    defaultIncomingCount org (clearDefaultIncoming o l)
      = if org = o then 0 else defaultIncomingCount org l := by
  induction l with
  | nil => simp [defaultIncomingCount, clearDefaultIncoming]
  | cons x xs ih =>
    by_cases horg : org = o <;>
      by_cases hxo : x.organizationID = o <;>
        by_cases hxi : x.isDefaultIncoming = true <;>
          simp_all [defaultIncomingCount, clearDefaultIncoming, List.countP_cons] <;>
            omega

theorem defaultIncomingCount_clearOutgoing (org o : Nat) (l : List WhatsAppAccount) :
    defaultIncomingCount org (clearDefaultOutgoing o l)
      = defaultIncomingCount org l := by
  induction l with
  | nil => rfl
  | cons x xs ih =>
    by_cases hxo : x.organizationID = o <;>
      by_cases hxi : x.isDefaultOutgoing = true <;>
        simp_all [defaultIncomingCount, clearDefaultOutgoing, List.countP_cons]

theorem defaultOutgoingCount_clearOutgoing (org o : Nat) (l : List WhatsAppAccount) :
    defaultOutgoingCount org (clearDefaultOutgoing o l)
      = if org = o then 0 else defaultOutgoingCount org l := by
  induction l with
  | nil => simp [defaultOutgoingCount, clearDefaultOutgoing]
  | cons x xs ih =>
    by_cases horg : org = o <;>
      by_cases hxo : x.organizationID = o <;>
        by_cases hxi : x.isDefaultOutgoing = true <;>
          simp_all [defaultOutgoingCount, clearDefaultOutgoing, List.countP_cons] <;>
            omega

theorem defaultOutgoingCount_clearIncoming (org o : Nat) (l : List WhatsAppAccount) :
    defaultOutgoingCount org (clearDefaultIncoming o l)
      = defaultOutgoingCount org l := by
  induction l with
  | nil => rfl
  | cons x xs ih =>
    by_cases hxo : x.organizationID = o <;>
      by_cases hxi : x.isDefaultIncoming = true <;>
        simp_all [defaultOutgoingCount, clearDefaultIncoming, List.countP_cons]

theorem map_id_clearIncoming (o : Nat) (l : List WhatsAppAccount) :
    (clearDefaultIncoming o l).map (fun a => a.id) = l.map (fun a => a.id) := by
  induction l with
  | nil => rfl
  | cons x xs ih =>
    simp only [clearDefaultIncoming, List.map_cons] at ih ⊢
    by_cases hx : x.organizationID = o ∧ x.isDefaultIncoming = true
    · rw [if_pos hx, ih]
    · rw [if_neg hx, ih]

theorem map_id_clearOutgoing (o : Nat) (l : List WhatsAppAccount) :
    (clearDefaultOutgoing o l).map (fun a => a.id) = l.map (fun a => a.id) := by
  induction l with
  | nil => rfl
  | cons x xs ih =>
    simp only [clearDefaultOutgoing, List.map_cons] at ih ⊢
    by_cases hx : x.organizationID = o ∧ x.isDefaultOutgoing = true
    · rw [if_pos hx, ih]
    · rw [if_neg hx, ih]

theorem mem_clearIncoming_of_not_default {a0 : WhatsAppAccount}
    {l : List WhatsAppAccount} (hflag : a0.isDefaultIncoming = false)
    (hmem : a0 ∈ l) (o : Nat) : a0 ∈ clearDefaultIncoming o l := by
  have : (if a0.organizationID = o ∧ a0.isDefaultIncoming = true then
      { a0 with isDefaultIncoming := false } else a0) = a0 := by
    rw [if_neg]; simp [hflag]
  exact this ▸ List.mem_map_of_mem _ hmem

theorem mem_clearOutgoing_of_not_default {a0 : WhatsAppAccount}
    {l : List WhatsAppAccount} (hflag : a0.isDefaultOutgoing = false)
    (hmem : a0 ∈ l) (o : Nat) : a0 ∈ clearDefaultOutgoing o l := by
  have : (if a0.organizationID = o ∧ a0.isDefaultOutgoing = true then
      { a0 with isDefaultOutgoing := false } else a0) = a0 := by
    rw [if_neg]; simp [hflag]
  exact this ▸ List.mem_map_of_mem _ hmem

theorem saveAccount_of_not_mem (a1 : WhatsAppAccount) :
    ∀ l : List WhatsAppAccount, (∀ a ∈ l, a.id ≠ a1.id) → saveAccount a1 l = l
  | [], _ => rfl
  | x :: xs, h => by
      have hx := h x (List.mem_cons_self x xs)
      have ih :=
        saveAccount_of_not_mem a1 xs (fun a ha => h a (List.mem_cons_of_mem x ha))
      simp only [saveAccount, List.map_cons] at ih ⊢
      rw [if_neg hx, ih]

theorem countP_saveAccount (p : WhatsAppAccount → Bool) (a1 : WhatsAppAccount) :
    ∀ (l : List WhatsAppAccount) (a0 : WhatsAppAccount),
      (l.map (fun a => a.id)).Nodup → a0 ∈ l → a1.id = a0.id →
      (saveAccount a1 l).countP p + (if p a0 then 1 else 0)
        = l.countP p + (if p a1 then 1 else 0)
  | [], a0, _, hmem, _ => absurd hmem (List.not_mem_nil a0)
  | x :: xs, a0, hnd, hmem, hid => by
      rw [List.map_cons, List.nodup_cons] at hnd
      obtain ⟨hx_not, hnd_xs⟩ := hnd
      rcases List.mem_cons.mp hmem with rfl | hmem_xs
      · have htail : saveAccount a1 xs = xs := by
          refine saveAccount_of_not_mem a1 xs (fun a ha heq => hx_not ?_)
          rw [hid] at heq
          exact heq ▸ List.mem_map_of_mem (fun a => a.id) ha
        simp only [saveAccount, List.map_cons, if_pos hid.symm]
        simp only [saveAccount] at htail
        rw [htail]
        simp only [List.countP_cons]
        by_cases hpa : p a1 = true <;> by_cases hpx : p a0 = true <;>
          simp [hpa, hpx] <;> omega
      · have hx_ne : a0.id ≠ x.id := by
          intro heq
          exact hx_not (heq ▸ List.mem_map_of_mem (fun a => a.id) hmem_xs)
        have hhead : ¬ x.id = a1.id := by rw [hid]; exact fun h => hx_ne h.symm
        have ih := countP_saveAccount p a1 xs a0 hnd_xs hmem_xs hid
        simp only [saveAccount, List.map_cons, if_neg hhead, List.countP_cons]
        simp only [saveAccount] at ih
        omega

theorem defaultIncomingCount_append (org : Nat) (l1 l2 : List WhatsAppAccount) :
    defaultIncomingCount org (l1 ++ l2)
      = defaultIncomingCount org l1 + defaultIncomingCount org l2 := by
  simp [defaultIncomingCount, List.countP_append]

theorem defaultOutgoingCount_append (org : Nat) (l1 l2 : List WhatsAppAccount) :
    defaultOutgoingCount org (l1 ++ l2)
      = defaultOutgoingCount org l1 + defaultOutgoingCount org l2 := by
  simp [defaultOutgoingCount, List.countP_append]

theorem defaultIncomingCount_singleton (org : Nat) (a : WhatsAppAccount) :
    defaultIncomingCount org [a]
      = if a.organizationID = org ∧ a.isDefaultIncoming = true then 1 else 0 := by
  simp [defaultIncomingCount, List.countP_cons]

theorem defaultOutgoingCount_singleton (org : Nat) (a : WhatsAppAccount) :
    defaultOutgoingCount org [a]
      = if a.organizationID = org ∧ a.isDefaultOutgoing = true then 1 else 0 := by
  simp [defaultOutgoingCount, List.countP_cons]

theorem incomingCount_bound_after_save (orgID : Nat) (l2 : List WhatsAppAccount)
    (a0 A2 : WhatsAppAccount) (hnd : (l2.map (fun a => a.id)).Nodup)
    (hmem : a0 ∈ l2) (hid : A2.id = a0.id)
    (ha0org : a0.organizationID = orgID) (hA2org : A2.organizationID = orgID)
    (hbound : ∀ org, defaultIncomingCount org l2 ≤ 1)
    (hkey : A2.isDefaultIncoming = true →
      a0.isDefaultIncoming = true ∨ defaultIncomingCount orgID l2 = 0) :
    ∀ org, defaultIncomingCount org (saveAccount A2 l2) ≤ 1 := by
  intro org
  have hident := countP_saveAccount
    (fun a => decide (a.organizationID = org ∧ a.isDefaultIncoming = true))
    A2 l2 a0 hnd hmem hid
  beta_reduce at hident
  have hb := hbound org
  unfold defaultIncomingCount at hb hkey ⊢
  by_cases horg : org = orgID
  · subst horg
    cases hA2i : A2.isDefaultIncoming with
    | false =>
      have hifA2 : (if decide (A2.organizationID = org ∧ A2.isDefaultIncoming = true)
          = true then 1 else 0) = 0 := by simp [hA2i]
      rw [hifA2] at hident
      omega
    | true =>
      have hifA2 : (if decide (A2.organizationID = org ∧ A2.isDefaultIncoming = true)
          = true then 1 else 0) = 1 := by simp [hA2org, hA2i]
      rw [hifA2] at hident
      rcases hkey hA2i with ha0i | hzero
      · have hifa0 : (if decide (a0.organizationID = org ∧ a0.isDefaultIncoming = true)
            = true then 1 else 0) = 1 := by simp [ha0org, ha0i]
        rw [hifa0] at hident
        omega
      · rw [hzero] at hident
        omega
  · have hifA2 : (if decide (A2.organizationID = org ∧ A2.isDefaultIncoming = true)
        = true then 1 else 0) = 0 := by
      rw [if_neg]
      simp only [decide_eq_true_eq]
      rintro ⟨h1, -⟩
      exact horg (by rw [← h1, hA2org])
    rw [hifA2] at hident
    omega

theorem outgoingCount_bound_after_save (orgID : Nat) (l2 : List WhatsAppAccount)
    (a0 A2 : WhatsAppAccount) (hnd : (l2.map (fun a => a.id)).Nodup)
    (hmem : a0 ∈ l2) (hid : A2.id = a0.id)
    (ha0org : a0.organizationID = orgID) (hA2org : A2.organizationID = orgID)
    (hbound : ∀ org, defaultOutgoingCount org l2 ≤ 1)
    (hkey : A2.isDefaultOutgoing = true →
      a0.isDefaultOutgoing = true ∨ defaultOutgoingCount orgID l2 = 0) :
    ∀ org, defaultOutgoingCount org (saveAccount A2 l2) ≤ 1 := by
  intro org
  have hident := countP_saveAccount
    (fun a => decide (a.organizationID = org ∧ a.isDefaultOutgoing = true))
    A2 l2 a0 hnd hmem hid
  beta_reduce at hident
  have hb := hbound org
  unfold defaultOutgoingCount at hb hkey ⊢
  by_cases horg : org = orgID
  · subst horg
    cases hA2i : A2.isDefaultOutgoing with
    | false =>
      have hifA2 : (if decide (A2.organizationID = org ∧ A2.isDefaultOutgoing = true)
          = true then 1 else 0) = 0 := by simp [hA2i]
      rw [hifA2] at hident
      omega
    | true =>
      have hifA2 : (if decide (A2.organizationID = org ∧ A2.isDefaultOutgoing = true)
          = true then 1 else 0) = 1 := by simp [hA2org, hA2i]
      rw [hifA2] at hident
      rcases hkey hA2i with ha0i | hzero
      · have hifa0 : (if decide (a0.organizationID = org ∧ a0.isDefaultOutgoing = true)
            = true then 1 else 0) = 1 := by simp [ha0org, ha0i]
        rw [hifa0] at hident
        omega
      · rw [hzero] at hident
        omega
  · have hifA2 : (if decide (A2.organizationID = org ∧ A2.isDefaultOutgoing = true)
        = true then 1 else 0) = 0 := by
      rw [if_neg]
      simp only [decide_eq_true_eq]
      rintro ⟨h1, -⟩
      exact horg (by rw [← h1, hA2org])
    rw [hifA2] at hident
    omega

theorem incomingCount_bound_after_append (orgID : Nat)
    (l2 : List WhatsAppAccount) (A : WhatsAppAccount)
    (hAorg : A.organizationID = orgID)
    (hbound : ∀ org, defaultIncomingCount org l2 ≤ 1)
    (hkey : A.isDefaultIncoming = true → defaultIncomingCount orgID l2 = 0) :
    ∀ org, defaultIncomingCount org (l2 ++ [A]) ≤ 1 := by
  intro org
  rw [defaultIncomingCount_append, defaultIncomingCount_singleton]
  by_cases hAi : A.isDefaultIncoming = true
  · by_cases ho : A.organizationID = org
    · rw [if_pos ⟨ho, hAi⟩]
      have h0 := hkey hAi
      have horg : org = orgID := by rw [← ho, hAorg]
      rw [horg, h0]
    · rw [if_neg (fun hc => ho hc.1)]
      have := hbound org
      omega
  · rw [if_neg (fun hc => hAi hc.2)]
    have := hbound org
    omega

theorem outgoingCount_bound_after_append (orgID : Nat)
    (l2 : List WhatsAppAccount) (A : WhatsAppAccount)
    (hAorg : A.organizationID = orgID)
    (hbound : ∀ org, defaultOutgoingCount org l2 ≤ 1)
    (hkey : A.isDefaultOutgoing = true → defaultOutgoingCount orgID l2 = 0) :
    ∀ org, defaultOutgoingCount org (l2 ++ [A]) ≤ 1 := by
  intro org
  rw [defaultOutgoingCount_append, defaultOutgoingCount_singleton]
  by_cases hAi : A.isDefaultOutgoing = true
  · by_cases ho : A.organizationID = org
    · rw [if_pos ⟨ho, hAi⟩]
      have h0 := hkey hAi
      have horg : org = orgID := by rw [← ho, hAorg]
      rw [horg, h0]
    · rw [if_neg (fun hc => ho hc.1)]
      have := hbound org
      omega
  · rw [if_neg (fun hc => hAi hc.2)]
    have := hbound org
    omega

theorem CreateAccount_defaults_bound (orgID newID : Nat) (genTok : String)
    (req : AccountRequest) (st st₁ : GatewayState) (r₁ : AccountResponse)
    (hinv : ∀ org, atMostOneDefaultPerOrg org st.accounts)
    (h : CreateAccount orgID req genTok newID st = .ok (st₁, r₁)) :
    ∀ org, atMostOneDefaultPerOrg org st₁.accounts := by
  intro org
  unfold CreateAccount at h
  split at h
  · exact Except.noConfusion h
  · simp only [Except.ok.injEq, Prod.mk.injEq] at h
    obtain ⟨h1, -⟩ := h
    rw [← h1]
    by_cases hc2 : req.isDefaultOutgoing = true <;>
      by_cases hc1 : req.isDefaultIncoming = true
    · refine ⟨?_, ?_⟩
      · rw [if_pos hc2, if_pos hc1]
        refine incomingCount_bound_after_append orgID _ _ rfl (fun o => ?_)
          (fun _ => ?_) org
        · rw [defaultIncomingCount_clearOutgoing, defaultIncomingCount_clearIncoming]
          by_cases ho : o = orgID
          · rw [if_pos ho]; omega
          · rw [if_neg ho]; exact (hinv o).1
        · rw [defaultIncomingCount_clearOutgoing,
            defaultIncomingCount_clearIncoming, if_pos rfl]
      · rw [if_pos hc2, if_pos hc1]
        refine outgoingCount_bound_after_append orgID _ _ rfl (fun o => ?_)
          (fun _ => ?_) org
        · rw [defaultOutgoingCount_clearOutgoing]
          by_cases ho : o = orgID
          · rw [if_pos ho]; omega
          · rw [if_neg ho, defaultOutgoingCount_clearIncoming]; exact (hinv o).2
        · rw [defaultOutgoingCount_clearOutgoing, if_pos rfl]
    · refine ⟨?_, ?_⟩
      · rw [if_pos hc2, if_neg hc1]
        refine incomingCount_bound_after_append orgID _ _ rfl (fun o => ?_)
          (fun hAi => absurd hAi hc1) org
        rw [defaultIncomingCount_clearOutgoing]
        exact (hinv o).1
      · rw [if_pos hc2, if_neg hc1]
        refine outgoingCount_bound_after_append orgID _ _ rfl (fun o => ?_)
          (fun _ => ?_) org
        · rw [defaultOutgoingCount_clearOutgoing]
          by_cases ho : o = orgID
          · rw [if_pos ho]; omega
          · rw [if_neg ho]; exact (hinv o).2
        · rw [defaultOutgoingCount_clearOutgoing, if_pos rfl]
    · refine ⟨?_, ?_⟩
      · rw [if_neg hc2, if_pos hc1]
        refine incomingCount_bound_after_append orgID _ _ rfl (fun o => ?_)
          (fun _ => ?_) org
        · rw [defaultIncomingCount_clearIncoming]
          by_cases ho : o = orgID
          · rw [if_pos ho]; omega
          · rw [if_neg ho]; exact (hinv o).1
        · rw [defaultIncomingCount_clearIncoming, if_pos rfl]
      · rw [if_neg hc2, if_pos hc1]
        refine outgoingCount_bound_after_append orgID _ _ rfl (fun o => ?_)
          (fun hAo => absurd hAo hc2) org
        rw [defaultOutgoingCount_clearIncoming]
        exact (hinv o).2
    · refine ⟨?_, ?_⟩
      · rw [if_neg hc2, if_neg hc1]
        exact incomingCount_bound_after_append orgID _ _ rfl (fun o => (hinv o).1)
          (fun hAi => absurd hAi hc1) org
      · rw [if_neg hc2, if_neg hc1]
        exact outgoingCount_bound_after_append orgID _ _ rfl (fun o => (hinv o).2)
          (fun hAo => absurd hAo hc2) org

theorem UpdateAccount_defaults_bound (orgID id : Nat) (req : AccountRequest)
    (st st₂ : GatewayState) (r₂ : AccountResponse)
    (hinv : ∀ org, atMostOneDefaultPerOrg org st.accounts)
    (hnd : (st.accounts.map (fun a => a.id)).Nodup)
    (h : UpdateAccount orgID id req st = .ok (st₂, r₂)) :
    ∀ org, atMostOneDefaultPerOrg org st₂.accounts := by
  intro org
  unfold UpdateAccount at h
  cases hf : findByIDAndOrg st.accounts id orgID with
  | none => rw [hf] at h; exact Except.noConfusion h
  | some a0 =>
    rw [hf] at h
    simp only [Except.ok.injEq, Prod.mk.injEq] at h
    obtain ⟨h1, -⟩ := h
    unfold findByIDAndOrg at hf
    have hmem := List.mem_of_find?_eq_some hf
    have hp := List.find?_some hf
    simp only [decide_eq_true_eq] at hp
    obtain ⟨-, horg0⟩ := hp
    by_cases hc1 : req.isDefaultIncoming = true ∧ ¬ a0.isDefaultIncoming = true <;>
      by_cases hc2 : req.isDefaultOutgoing = true ∧ ¬ a0.isDefaultOutgoing = true
    · rw [if_pos hc1, if_pos hc2] at h1
      have ha0i : a0.isDefaultIncoming = false := Bool.eq_false_iff.mpr hc1.2
      have ha0o : a0.isDefaultOutgoing = false := Bool.eq_false_iff.mpr hc2.2
      rw [← h1]
      refine ⟨incomingCount_bound_after_save orgID _ a0 (updatedAccount a0 req) ?_ ?_ rfl horg0 horg0
          ?_ ?_ org,
        outgoingCount_bound_after_save orgID _ a0 (updatedAccount a0 req) ?_ ?_ rfl horg0 horg0
          ?_ ?_ org⟩
      · rw [map_id_clearOutgoing, map_id_clearIncoming]; exact hnd
      · exact mem_clearOutgoing_of_not_default ha0o
          (mem_clearIncoming_of_not_default ha0i hmem orgID) orgID
      · intro o
        rw [defaultIncomingCount_clearOutgoing, defaultIncomingCount_clearIncoming]
        by_cases ho : o = orgID
        · rw [if_pos ho]; omega
        · rw [if_neg ho]; exact (hinv o).1
      · intro _
        refine Or.inr ?_
        rw [defaultIncomingCount_clearOutgoing,
          defaultIncomingCount_clearIncoming, if_pos rfl]
      · rw [map_id_clearOutgoing, map_id_clearIncoming]; exact hnd
      · exact mem_clearOutgoing_of_not_default ha0o
          (mem_clearIncoming_of_not_default ha0i hmem orgID) orgID
      · intro o
        rw [defaultOutgoingCount_clearOutgoing]
        by_cases ho : o = orgID
        · rw [if_pos ho]; omega
        · rw [if_neg ho, defaultOutgoingCount_clearIncoming]; exact (hinv o).2
      · intro _
        refine Or.inr ?_
        rw [defaultOutgoingCount_clearOutgoing, if_pos rfl]
    · rw [if_pos hc1, if_neg hc2] at h1
      have ha0i : a0.isDefaultIncoming = false := Bool.eq_false_iff.mpr hc1.2
      rw [← h1]
      refine ⟨incomingCount_bound_after_save orgID _ a0 (updatedAccount a0 req) ?_ ?_ rfl horg0 horg0
          ?_ ?_ org,
        outgoingCount_bound_after_save orgID _ a0 (updatedAccount a0 req) ?_ ?_ rfl horg0 horg0
          ?_ ?_ org⟩
      · rw [map_id_clearIncoming]; exact hnd
      · exact mem_clearIncoming_of_not_default ha0i hmem orgID
      · intro o
        rw [defaultIncomingCount_clearIncoming]
        by_cases ho : o = orgID
        · rw [if_pos ho]; omega
        · rw [if_neg ho]; exact (hinv o).1
      · intro _
        refine Or.inr ?_
        rw [defaultIncomingCount_clearIncoming, if_pos rfl]
      · rw [map_id_clearIncoming]; exact hnd
      · exact mem_clearIncoming_of_not_default ha0i hmem orgID
      · intro o
        rw [defaultOutgoingCount_clearIncoming]; exact (hinv o).2
      · intro hA2o
        refine Or.inl ?_
        by_contra hno
        exact hc2 ⟨hA2o, hno⟩
    · rw [if_neg hc1, if_pos hc2] at h1
      have ha0o : a0.isDefaultOutgoing = false := Bool.eq_false_iff.mpr hc2.2
      rw [← h1]
      refine ⟨incomingCount_bound_after_save orgID _ a0 (updatedAccount a0 req) ?_ ?_ rfl horg0 horg0
          ?_ ?_ org,
        outgoingCount_bound_after_save orgID _ a0 (updatedAccount a0 req) ?_ ?_ rfl horg0 horg0
          ?_ ?_ org⟩
      · rw [map_id_clearOutgoing]; exact hnd
      · exact mem_clearOutgoing_of_not_default ha0o hmem orgID
      · intro o
        rw [defaultIncomingCount_clearOutgoing]; exact (hinv o).1
      · intro hA2i
        refine Or.inl ?_
        by_contra hno
        exact hc1 ⟨hA2i, hno⟩
      · rw [map_id_clearOutgoing]; exact hnd
      · exact mem_clearOutgoing_of_not_default ha0o hmem orgID
      · intro o
        rw [defaultOutgoingCount_clearOutgoing]
        by_cases ho : o = orgID
        · rw [if_pos ho]; omega
        · rw [if_neg ho]; exact (hinv o).2
      · intro _
        refine Or.inr ?_
        rw [defaultOutgoingCount_clearOutgoing, if_pos rfl]
    · rw [if_neg hc1, if_neg hc2] at h1
      rw [← h1]
      refine ⟨incomingCount_bound_after_save orgID _ a0 (updatedAccount a0 req) hnd hmem rfl horg0 horg0
          (fun o => (hinv o).1) ?_ org,
        outgoingCount_bound_after_save orgID _ a0 (updatedAccount a0 req) hnd hmem rfl horg0 horg0
          (fun o => (hinv o).2) ?_ org⟩
      · intro hA2i
        refine Or.inl ?_
        by_contra hno
        exact hc1 ⟨hA2i, hno⟩
      · intro hA2o
        refine Or.inl ?_
        by_contra hno
        exact hc2 ⟨hA2o, hno⟩

/-- C4: provided every organization starts with at most one account per
default flag (and primary keys are distinct), any completed `CreateAccount`
or `UpdateAccount` call leaves every organization with at most one account
holding `is_default_incoming = true` and at most one holding
`is_default_outgoing = true` — the handlers first clear the flag on the
organization's other accounts whenever a request newly sets it. -/
theorem C4_default_flags_unique (orgID id newID : Nat) (genTok : String)
    (reqC reqU : AccountRequest) (st st₁ st₂ : GatewayState)
    (r₁ r₂ : AccountResponse)
    (hinv : ∀ org, atMostOneDefaultPerOrg org st.accounts)
    (hnd : (st.accounts.map (fun a => a.id)).Nodup) :
    (CreateAccount orgID reqC genTok newID st = .ok (st₁, r₁) →
      ∀ org, atMostOneDefaultPerOrg org st₁.accounts) ∧
    (UpdateAccount orgID id reqU st = .ok (st₂, r₂) →
      ∀ org, atMostOneDefaultPerOrg org st₂.accounts) :=
  ⟨fun h => CreateAccount_defaults_bound orgID newID genTok reqC st st₁ r₁ hinv h,
   fun h => UpdateAccount_defaults_bound orgID id reqU st st₂ r₂ hinv hnd h⟩

/-- A request that makes the mutated account the organization's default for
both directions. -/
def c4Req : AccountRequest :=
  { name := "Third", appID := "", phoneID := "P4", businessID := "B4",
    accessToken := "T4", appSecret := "", webhookVerifyToken := "",
    apiVersion := "", isDefaultIncoming := true, isDefaultOutgoing := true,
    autoReadReceipt := false }

/-- The row `CreateAccount` builds from `c4Req` with verify token `g` and
key `2`. -/
def c4NewAccount : WhatsAppAccount :=
  { id := 2, organizationID := 1, name := "Third", appID := "",
    phoneID := "P4", businessID := "B4", accessToken := "T4", appSecret := "",
    webhookVerifyToken := "g", apiVersion := "v21.0",
    isDefaultIncoming := true, isDefaultOutgoing := true,
    autoReadReceipt := false, status := "active", pin := "",
    createdAt := "", updatedAt := "" }

/-- State after `CreateAccount 1 c4Req "g" 2 c1State`. -/
def c4AfterCreate : GatewayState :=
  { accounts :=
      clearDefaultOutgoing 1 (clearDefaultIncoming 1 c1State.accounts)
        ++ [c4NewAccount],
    cache := c1State.cache }

/-- State after `UpdateAccount 1 1 c4Req c1State`. -/
def c4AfterUpdate : GatewayState :=
  { accounts :=
      saveAccount (updatedAccount c1Account c4Req)
        (clearDefaultOutgoing 1 (clearDefaultIncoming 1 c1State.accounts)),
    cache := invalidateWhatsAppAccountCache
      (updatedAccount c1Account c4Req).phoneID c1State.cache }

/-- Witness for C4 at the concrete one-account state: after a create and
after an update that both set the default flags, the organization still has
at most one default account per direction. -/
theorem C4_default_flags_unique_witness :
    atMostOneDefaultPerOrg 1 c4AfterCreate.accounts ∧
    atMostOneDefaultPerOrg 1 c4AfterUpdate.accounts := by
  have h := C4_default_flags_unique 1 1 2 "g" c4Req c4Req c1State
    c4AfterCreate c4AfterUpdate (accountToResponse c4NewAccount)
    (accountToResponse (updatedAccount c1Account c4Req))
    (fun org => ⟨by simp [c1State, c1Account, defaultIncomingCount],
                 by simp [c1State, c1Account, defaultOutgoingCount]⟩)
    (by simp [c1State])
  exact ⟨h.1 rfl 1, h.2 rfl 1⟩

/-- One HTTP response from the Meta Graph API as `validateAccountCredentials`
(`accounts.go`, direct-HTTP variant) consumes it: the status code, the
`error.message` string when the body parses to a structured error object,
and the phone-number ids of the `phone_numbers` listing (used only by the
third call). -/
structure ProviderResponse where
  statusCode : Nat
  errorMessage : Option String
  phoneIDs : List String
  deriving Repr, DecidableEq

/-- `validateAccountCredentials` from `accounts.go`: three sequential GET
calls (phone info, business info, business phone-number list), each checked
for a 200 status; a non-200 response aborts with an error that embeds the
provider's `error.message` verbatim when present. The provider is modelled
as the queue of responses `responses`; the second component counts the HTTP
requests issued, and an exhausted queue stands for a transport failure of
the request just issued. No call is ever re-issued. -/
def validateAccountCredentials (phoneID : String)
    (responses : List ProviderResponse) : Except String Unit × Nat :=
  match responses with
  | [] => (.error "failed to validate phone_id", 1)
  | r1 :: rest1 =>
    if r1.statusCode ≠ 200 then
      (match r1.errorMessage with
       | some msg => (.error ("invalid phone_id or access_token: " ++ msg), 1)
       | none =>
         (.error ("invalid phone_id or access_token (status "
            ++ toString r1.statusCode ++ ")"), 1))
    else
      match rest1 with
      | [] => (.error "failed to validate business_id", 2)
      | r2 :: rest2 =>
        if r2.statusCode ≠ 200 then
          (match r2.errorMessage with
           | some msg => (.error ("invalid business_id: " ++ msg), 2)
           | none =>
             (.error ("invalid business_id (status "
                ++ toString r2.statusCode ++ ")"), 2))
        else
          match rest2 with
          | [] => (.error "failed to fetch business phone numbers", 3)
          | r3 :: _ =>
            if r3.statusCode ≠ 200 then
              (match r3.errorMessage with
               | some msg =>
                 (.error ("failed to verify phone-business relationship: "
                    ++ msg), 3)
               | none =>
                 (.error ("failed to verify phone-business relationship (status "
                    ++ toString r3.statusCode ++ ")"), 3))
            else
              if r3.phoneIDs.contains phoneID then (.ok (), 3)
              else
                (.error "phone_id does not belong to business_id. Please verify your configuration", 3)

/-- C8: whenever the provider answers one of the outbound validation calls
with a non-2xx status carrying a structured error body, the operation fails
with an error embedding the provider's message verbatim (as its suffix),
and the rejected call is never retried: exactly as many requests are issued
as responses consumed up to and including the rejected one. -/
theorem C8_provider_error_surfaced (phoneID msg : String)
    (r1 r2 r3 : ProviderResponse) (rest : List ProviderResponse) :
    ((r1.statusCode < 200 ∨ 300 ≤ r1.statusCode) → r1.errorMessage = some msg →
      validateAccountCredentials phoneID (r1 :: rest)
        = (.error ("invalid phone_id or access_token: " ++ msg), 1)) ∧
    (r1.statusCode = 200 → (r2.statusCode < 200 ∨ 300 ≤ r2.statusCode) →
      r2.errorMessage = some msg →
      validateAccountCredentials phoneID (r1 :: r2 :: rest)
        = (.error ("invalid business_id: " ++ msg), 2)) ∧
    (r1.statusCode = 200 → r2.statusCode = 200 →
      (r3.statusCode < 200 ∨ 300 ≤ r3.statusCode) → r3.errorMessage = some msg →
      validateAccountCredentials phoneID (r1 :: r2 :: r3 :: rest)
        = (.error ("failed to verify phone-business relationship: " ++ msg), 3)) := by
  refine ⟨?_, ?_, ?_⟩
  · intro hs hm
    have h1 : r1.statusCode ≠ 200 := by omega
    simp [validateAccountCredentials, h1, hm]
  · intro h200 hs hm
    have h2 : r2.statusCode ≠ 200 := by omega
    simp [validateAccountCredentials, h200, h2, hm]
  · intro h200a h200b hs hm
    have h3 : r3.statusCode ≠ 200 := by omega
    simp [validateAccountCredentials, h200a, h200b, h3, hm]

/-- Witness for C8: a 400 response with message `no permission` on each of
the three calls surfaces that message verbatim and issues no retry. -/
theorem C8_provider_error_surfaced_witness :
    validateAccountCredentials "P1"
        [{ statusCode := 400, errorMessage := some "no permission", phoneIDs := [] }]
      = (.error ("invalid phone_id or access_token: " ++ "no permission"), 1) ∧
    validateAccountCredentials "P1"
        [{ statusCode := 200, errorMessage := none, phoneIDs := [] },
         { statusCode := 400, errorMessage := some "no permission", phoneIDs := [] }]
      = (.error ("invalid business_id: " ++ "no permission"), 2) ∧
    validateAccountCredentials "P1"
        [{ statusCode := 200, errorMessage := none, phoneIDs := [] },
         { statusCode := 200, errorMessage := none, phoneIDs := [] },
         { statusCode := 400, errorMessage := some "no permission", phoneIDs := [] }]
      = (.error ("failed to verify phone-business relationship: "
          ++ "no permission"), 3) := by
  refine ⟨?_, ?_, ?_⟩
  · exact (C8_provider_error_surfaced "P1" "no permission"
      { statusCode := 400, errorMessage := some "no permission", phoneIDs := [] }
      { statusCode := 400, errorMessage := some "no permission", phoneIDs := [] }
      { statusCode := 400, errorMessage := some "no permission", phoneIDs := [] }
      []).1 (by decide) rfl
  · exact (C8_provider_error_surfaced "P1" "no permission"
      { statusCode := 200, errorMessage := none, phoneIDs := [] }
      { statusCode := 400, errorMessage := some "no permission", phoneIDs := [] }
      { statusCode := 400, errorMessage := some "no permission", phoneIDs := [] }
      []).2.1 rfl (by decide) rfl
  · exact (C8_provider_error_surfaced "P1" "no permission"
      { statusCode := 200, errorMessage := none, phoneIDs := [] }
      { statusCode := 200, errorMessage := none, phoneIDs := [] }
      { statusCode := 400, errorMessage := some "no permission", phoneIDs := [] }
      []).2.2 rfl rfl (by decide) rfl

/-- `generateNumericPIN` from `accounts.go`: fills `n` random bytes and maps
each to a decimal digit character; if the random read fails (`randBytes =
none`) it falls back to the fixed string `123456`. -/
def generateNumericPIN (n : Nat) (randBytes : Option (List Nat)) : String :=
  match randBytes with
  | none => "123456"
  | some bs => String.mk (bs.map (fun b => Char.ofNat (b % 10 + 48)))

/-- The account-assembly and auto-registration tail of `ExchangeToken`
(`accounts.go`): the found-or-fresh account gets the discovered identifiers
and the exchanged token with status `pending_registration`; a fresh account
starts with cleared flags; if the provider's register call succeeded
(`regOk`) the status becomes `active` and the generated PIN is stored; the
row is saved either way, and the response carries the PIN exactly when the
saved status is `active` and the PIN is non-empty. -/
def exchangeTokenFinalize (existing : Option WhatsAppAccount) (orgID : Nat)
    (name appID phoneID wabaID accessToken webhookVerifyToken apiVersion genPin :
      String) (regOk : Bool) : WhatsAppAccount × Option String :=
  let base :=
    match existing with
    | some acc => acc
    | none =>
      { id := 0, organizationID := 0, name := "", appID := "", phoneID := "",
        businessID := "", accessToken := "", appSecret := "",
        webhookVerifyToken := "", apiVersion := "", isDefaultIncoming := false,
        isDefaultOutgoing := false, autoReadReceipt := false, status := "",
        pin := "", createdAt := "", updatedAt := "" }
  let acct :=
    { base with
      organizationID := orgID
      name := name
      appID := appID
      phoneID := phoneID
      businessID := wabaID
      accessToken := accessToken
      webhookVerifyToken := webhookVerifyToken
      apiVersion := apiVersion
      status := "pending_registration" }
  let acct :=
    match existing with
    | none =>
      { acct with
        isDefaultIncoming := false
        isDefaultOutgoing := false
        autoReadReceipt := false }
    | some _ => acct
  let acct :=
    if regOk then { acct with status := "active", pin := genPin }
    else { acct with status := "pending_registration" }
  let pinResp :=
    if acct.status = "active" ∧ acct.pin ≠ "" then some acct.pin else none
  (acct, pinResp)

theorem generateNumericPIN_length (randBytes : Option (List Nat))
    (hlen : ∀ bs, randBytes = some bs → bs.length = 6) :
    (generateNumericPIN 6 randBytes).length = 6 := by
  cases randBytes with
  | none => rfl
  | some bs =>
    have h := hlen bs rfl
    simp [generateNumericPIN, String.length, h]

theorem generateNumericPIN_digits (randBytes : Option (List Nat)) :
    ∀ c ∈ (generateNumericPIN 6 randBytes).data, c ∈ "0123456789".data := by
  cases randBytes with
  | none => decide
  | some bs =>
    intro c hc
    simp only [generateNumericPIN, String.mk, List.mem_map] at hc
    obtain ⟨b, -, rfl⟩ := hc
    have hk : b % 10 < 10 := Nat.mod_lt _ (by omega)
    interval_cases h : b % 10 <;> decide

/-- C9: after the token-exchange tail, the saved account has status
`active` with the generated six-digit PIN stored and returned exactly when
the provider's automatic phone registration succeeded; when registration
fails the account is still produced (saved) with status
`pending_registration` and the response carries no PIN. -/
theorem C9_exchange_token_registration (existing : Option WhatsAppAccount)
    (orgID : Nat)
    (name appID phoneID wabaID accessToken webhookVerifyToken apiVersion : String)
    (randBytes : Option (List Nat)) (regOk : Bool)
    (hlen : ∀ bs, randBytes = some bs → bs.length = 6) :
    ((generateNumericPIN 6 randBytes).length = 6 ∧
      ∀ c ∈ (generateNumericPIN 6 randBytes).data, c ∈ "0123456789".data) ∧
    (regOk = true →
      (exchangeTokenFinalize existing orgID name appID phoneID wabaID accessToken
          webhookVerifyToken apiVersion (generateNumericPIN 6 randBytes) regOk).1.status
          = "active" ∧
      (exchangeTokenFinalize existing orgID name appID phoneID wabaID accessToken
          webhookVerifyToken apiVersion (generateNumericPIN 6 randBytes) regOk).1.pin
          = generateNumericPIN 6 randBytes ∧
      (exchangeTokenFinalize existing orgID name appID phoneID wabaID accessToken
          webhookVerifyToken apiVersion (generateNumericPIN 6 randBytes) regOk).2
          = some (generateNumericPIN 6 randBytes)) ∧
    (regOk = false →
      (exchangeTokenFinalize existing orgID name appID phoneID wabaID accessToken
          webhookVerifyToken apiVersion (generateNumericPIN 6 randBytes) regOk).1.status
          = "pending_registration" ∧
      (exchangeTokenFinalize existing orgID name appID phoneID wabaID accessToken
          webhookVerifyToken apiVersion (generateNumericPIN 6 randBytes) regOk).2
          = none) := by
  have hne : generateNumericPIN 6 randBytes ≠ "" := by
    intro h
    have := generateNumericPIN_length randBytes hlen
    rw [h] at this
    simp at this
  refine ⟨⟨generateNumericPIN_length randBytes hlen,
    generateNumericPIN_digits randBytes⟩, ?_, ?_⟩
  · intro hr
    subst hr
    cases existing <;>
      simp [exchangeTokenFinalize, hne]
  · intro hr
    subst hr
    cases existing <;>
      simp [exchangeTokenFinalize]

/-- Witness for C9 at concrete inputs: a fresh account, random bytes
`[3, 1, 4, 1, 5, 9]`, in both the succeeded- and failed-registration
cases. -/
theorem C9_exchange_token_registration_witness :
    ((exchangeTokenFinalize none 1 "n" "a" "P" "W" "T" "V" "v21.0"
        (generateNumericPIN 6 (some [3, 1, 4, 1, 5, 9])) true).1.status = "active" ∧
      (exchangeTokenFinalize none 1 "n" "a" "P" "W" "T" "V" "v21.0"
        (generateNumericPIN 6 (some [3, 1, 4, 1, 5, 9])) true).1.pin
        = generateNumericPIN 6 (some [3, 1, 4, 1, 5, 9]) ∧
      (exchangeTokenFinalize none 1 "n" "a" "P" "W" "T" "V" "v21.0"
        (generateNumericPIN 6 (some [3, 1, 4, 1, 5, 9])) true).2
        = some (generateNumericPIN 6 (some [3, 1, 4, 1, 5, 9]))) ∧
    ((exchangeTokenFinalize none 1 "n" "a" "P" "W" "T" "V" "v21.0"
        (generateNumericPIN 6 (some [3, 1, 4, 1, 5, 9])) false).1.status
        = "pending_registration" ∧
      (exchangeTokenFinalize none 1 "n" "a" "P" "W" "T" "V" "v21.0"
        (generateNumericPIN 6 (some [3, 1, 4, 1, 5, 9])) false).2 = none) := by
  have h1 := C9_exchange_token_registration none 1 "n" "a" "P" "W" "T" "V" "v21.0"
    (some [3, 1, 4, 1, 5, 9]) true (by intro bs hbs; cases hbs; rfl)
  have h2 := C9_exchange_token_registration none 1 "n" "a" "P" "W" "T" "V" "v21.0"
    (some [3, 1, 4, 1, 5, 9]) false (by intro bs hbs; cases hbs; rfl)
  exact ⟨h1.2.1 rfl, h2.2.2 rfl⟩

/-- Modelled from the spec: the outbound dispatcher's error taxonomy (§4.4,
§7). The dispatcher implementation is not among the published sources. -/
inductive SendError where
  | windowClosed
  | providerRejected (message : String) (code : Int)
  | transport
  | templateNotApproved
  | missingVariable
  deriving Repr, DecidableEq

/-- Modelled from the spec: the session-window engine (§4.3; its
implementation is not among the published sources). The state is a pure
function of the provider-reported timestamp of the contact's most recent
inbound message: open exactly when `now - t < 24h` (strict), and closed
when no inbound message exists. Times are unix seconds. -/
def isOpen (lastInboundTs : Option Int) (now : Int) : Bool :=
  match lastInboundTs with
  | none => false
  | some t => now - t < 86400

/-- Modelled from the spec: the free-form send gate of `sendText` (§4.4;
the dispatcher is not among the published sources) — it fails with
`WindowClosed` exactly when the session window reports CLOSED. -/
def sendText (lastInboundTs : Option Int) (now : Int) : Except SendError Unit :=
  if isOpen lastInboundTs now then .ok () else .error .windowClosed

/-- Exact correspondence between a template's placeholder set and the
supplied variable keys, as sets of names. -/
def templateVarsMatch (placeholders varKeys : List String) : Bool :=
  placeholders.all (fun p => varKeys.contains p) &&
    varKeys.all (fun k => placeholders.contains k)

/-- Modelled from the spec: `sendTemplate` (§4.4; the dispatcher is not
among the published sources). It takes the window state but never consults
it — approved templates are the sanctioned path to reopen a conversation —
and fails with `TemplateNotApproved` unless the named template's cached
status is `APPROVED`, then with `MissingVariable` unless the placeholder
set and the supplied keys correspond exactly. -/
def sendTemplate (lastInboundTs : Option Int) (now : Int)
    (templateStatus : String) (placeholders varKeys : List String) :
    Except SendError Unit :=
  if templateStatus ≠ "APPROVED" then .error .templateNotApproved
  else if templateVarsMatch placeholders varKeys then .ok ()
  else .error .missingVariable

/-- C2: the session window is open exactly when the most recent inbound
message's provider timestamp `t` satisfies `now - t < 24h`, with a strict
comparison — a message timestamped exactly 24 hours before `now` yields
CLOSED — and the free-form send gate permits sending exactly when the
window is open. -/
theorem C2_window_strict_24h (t now : Int) :
    (isOpen (some t) now = decide (now - t < 86400)) ∧
    (isOpen (some (now - 86400)) now = false) ∧
    (sendText (some t) now = .ok () ↔ isOpen (some t) now = true) ∧
    (sendText (some t) now = .error .windowClosed ↔ isOpen (some t) now = false) := by
  refine ⟨rfl, ?_, ?_, ?_⟩
  · have h : ¬ (now - (now - 86400) < 86400) := by omega
    simp [isOpen, h]
  · unfold sendText
    by_cases h : isOpen (some t) now <;> simp [h]
  · unfold sendText
    by_cases h : isOpen (some t) now <;> simp [h]

/-- C3: a contact with no inbound message at all has a CLOSED window, the
free-form send gate refuses with `WindowClosed`, and an approved template
with exactly matching variables can still be sent — the only way to
initiate the conversation. -/
theorem C3_empty_history_closed (now : Int) (placeholders varKeys : List String)
    (hmatch : templateVarsMatch placeholders varKeys = true) :
    isOpen none now = false ∧
    sendText none now = .error .windowClosed ∧
    sendTemplate none now "APPROVED" placeholders varKeys = .ok () := by
  refine ⟨rfl, rfl, ?_⟩
  simp [sendTemplate, hmatch]

/-- Witness for C3 at a concrete time and a one-placeholder template. -/
theorem C3_empty_history_closed_witness :
    isOpen none 1700000000 = false ∧
    sendText none 1700000000 = .error .windowClosed ∧
    sendTemplate none 1700000000 "APPROVED" ["1"] ["1"] = .ok () :=
  C3_empty_history_closed 1700000000 ["1"] ["1"] (by decide)

/-- C6: `sendTemplate` ignores the session window entirely (its result is
the same for any window state and it never fails with `WindowClosed`); it
fails with `TemplateNotApproved` when the cached template status is not
`APPROVED`, and, for an approved template, fails with `MissingVariable`
exactly unless the supplied keys and the placeholder set correspond
one-to-one — no placeholder unfilled and no extra key accepted. -/
theorem C6_sendTemplate_contract (w w' : Option Int) (n n' : Int)
    (templateStatus : String) (placeholders varKeys : List String) :
    (sendTemplate w n templateStatus placeholders varKeys
      = sendTemplate w' n' templateStatus placeholders varKeys) ∧
    (sendTemplate w n templateStatus placeholders varKeys
      ≠ .error .windowClosed) ∧
    (templateStatus ≠ "APPROVED" →
      sendTemplate w n templateStatus placeholders varKeys
        = .error .templateNotApproved) ∧
    (templateStatus = "APPROVED" → templateVarsMatch placeholders varKeys = false →
      sendTemplate w n templateStatus placeholders varKeys
        = .error .missingVariable) ∧
    (templateStatus = "APPROVED" → templateVarsMatch placeholders varKeys = true →
      sendTemplate w n templateStatus placeholders varKeys = .ok ()) ∧
    (templateVarsMatch placeholders varKeys = true ↔
      ((∀ p ∈ placeholders, p ∈ varKeys) ∧ (∀ k ∈ varKeys, k ∈ placeholders))) := by
  refine ⟨rfl, ?_, ?_, ?_, ?_, ?_⟩
  · unfold sendTemplate
    by_cases hs : templateStatus ≠ "APPROVED"
    · simp [hs]
    · by_cases hm : templateVarsMatch placeholders varKeys <;> simp [hs, hm]
  · intro hs
    simp [sendTemplate, hs]
  · intro hs hm
    simp [sendTemplate, hs, hm]
  · intro hs hm
    simp [sendTemplate, hs, hm]
  · unfold templateVarsMatch
    simp [List.all_eq_true]

/-- Witness for C6: an approved template with placeholder `1`, first with an
exactly matching key, then with an extra key, then unapproved. -/
theorem C6_sendTemplate_contract_witness :
    sendTemplate none 0 "APPROVED" ["1"] ["1"] = .ok () ∧
    sendTemplate none 0 "APPROVED" ["1"] ["1", "2"] = .error .missingVariable ∧
    sendTemplate none 0 "PENDING" ["1"] ["1"] = .error .templateNotApproved := by
  refine ⟨?_, ?_, ?_⟩
  · exact (C6_sendTemplate_contract none none 0 0 "APPROVED" ["1"] ["1"]).2.2.2.2.1
      rfl (by decide)
  · exact (C6_sendTemplate_contract none none 0 0 "APPROVED" ["1"]
      ["1", "2"]).2.2.2.1 rfl (by decide)
  · exact (C6_sendTemplate_contract none none 0 0 "PENDING" ["1"] ["1"]).2.2.1
      (by decide)

/-- Modelled from the spec: the delivery-status values of a Message (§3,
§4.5; the reconciler implementation is not among the published sources). -/
inductive MessageStatus where
  | sent
  | delivered
  | read
  | failed
  deriving Repr, DecidableEq

/-- Modelled from the spec: the strict status ordering
`sent < delivered < read < failed` used for regression protection (§4.5,
§9: a strictly ordered rank comparison, not wall-clock alone). -/
def statusRank : MessageStatus → Nat
  | .sent => 0
  | .delivered => 1
  | .read => 2
  | .failed => 3

/-- Modelled from the spec: a stored Message row as the reconciler touches
it — provider message id and mutable delivery status (§3, §4.5). -/
structure StoredMessage where
  id : Nat
  providerMessageID : String
  status : MessageStatus
  deriving Repr, DecidableEq

/-- Modelled from the spec: the effect of one status callback on one stored
row — the status field is overwritten only when the row matches the
provider message id and the incoming status ranks strictly above the stored
one (§4.5). -/
def applyStatusOne (pid : String) (s : MessageStatus) (m : StoredMessage) :
    StoredMessage :=
  if m.providerMessageID = pid ∧ statusRank m.status < statusRank s then
    { m with status := s }
  else m

/-- Modelled from the spec: `applyStatus(providerMessageID, status, _) → ok
| NotFound` (§4.5) over the stored rows: it updates the matching row's
status (never inserting a row) and reports whether a row was found. -/
def applyStatus (pid : String) (s : MessageStatus)
    (msgs : List StoredMessage) : List StoredMessage × Bool :=
  (msgs.map (applyStatusOne pid s), msgs.any (fun m => m.providerMessageID = pid))

theorem applyStatusOne_idem (pid : String) (s : MessageStatus)
    (m : StoredMessage) :
    applyStatusOne pid s (applyStatusOne pid s m) = applyStatusOne pid s m := by
  unfold applyStatusOne
  by_cases h : m.providerMessageID = pid ∧ statusRank m.status < statusRank s
  · rw [if_pos h, if_neg]
    rintro ⟨-, hlt⟩
    simp at hlt
  · rw [if_neg h, if_neg h]

/-- C7: a stored message's delivery status only advances along
`sent < delivered < read < failed`: a callback ranking at or below the
stored status leaves every row unchanged, applying the same batch twice has
the same effect as applying it once, and no callback ever creates a row. -/
theorem C7_status_monotone (pid : String) (s : MessageStatus)
    (msgs : List StoredMessage) :
    ((applyStatus pid s msgs).1.length = msgs.length) ∧
    (∀ m ∈ msgs, statusRank m.status ≤ statusRank (applyStatusOne pid s m).status) ∧
    (∀ m ∈ msgs, statusRank s ≤ statusRank m.status → applyStatusOne pid s m = m) ∧
    ((applyStatus pid s (applyStatus pid s msgs).1).1 = (applyStatus pid s msgs).1) := by
  refine ⟨by simp [applyStatus], ?_, ?_, ?_⟩
  · intro m _
    unfold applyStatusOne
    by_cases h : m.providerMessageID = pid ∧ statusRank m.status < statusRank s
    · rw [if_pos h]
      exact Nat.le_of_lt h.2
    · rw [if_neg h]
  · intro m _ hle
    unfold applyStatusOne
    rw [if_neg]
    rintro ⟨-, hlt⟩
    omega
  · simp only [applyStatus, List.map_map]
    refine List.map_congr_left (fun m _ => ?_)
    exact applyStatusOne_idem pid s m

/-- Witness for C7: a row already `read` is unchanged by a late `delivered`
callback, and re-applying a `read` callback to a `sent` row twice equals
applying it once. -/
theorem C7_status_monotone_witness :
    applyStatusOne "w1" MessageStatus.delivered
        { id := 1, providerMessageID := "w1", status := MessageStatus.read }
      = { id := 1, providerMessageID := "w1", status := MessageStatus.read } ∧
    (applyStatus "w1" MessageStatus.read
        (applyStatus "w1" MessageStatus.read
          [{ id := 1, providerMessageID := "w1", status := MessageStatus.sent }]).1).1
      = (applyStatus "w1" MessageStatus.read
          [{ id := 1, providerMessageID := "w1", status := MessageStatus.sent }]).1 := by
  refine ⟨?_, ?_⟩
  · exact (C7_status_monotone "w1" MessageStatus.delivered
      [{ id := 1, providerMessageID := "w1", status := MessageStatus.read }]).2.2.1
      _ (by simp) (by decide)
  · exact (C7_status_monotone "w1" MessageStatus.read
      [{ id := 1, providerMessageID := "w1", status := MessageStatus.sent }]).2.2.2
